import Mathlib

/-!
Shallow embedding of the pleroma-fe UI components under verification:
`registration.js` (the registration submit handler) and the bundle in
`navigation_pins.js` (the NavPanel pinned-navigation computed property,
the WhoToFollow suggestion loader, and the EmojiInput autocomplete widget).

JavaScript strings are modelled as `List Char`; machine behaviour that the
claims depend on (`String.prototype.substring` clamping, the `||` default
operator, `setTimeout`/`clearTimeout` bookkeeping) is modelled explicitly.
-/

namespace PleromaFE

/-- JavaScript string, modelled as a list of characters. -/
abbrev JStr := List Char

/-- JavaScript `s.substring(a, b)`: both indices are clamped to
`[0, s.length]` and swapped when out of order. -/
def jsSubstring (s : JStr) (a b : Nat) : JStr :=
  (s.take (max (min a s.length) (min b s.length))).drop
    (min (min a s.length) (min b s.length))

/-- JavaScript `s.substring(a)`: the index is clamped to `[0, s.length]`. -/
def jsSubstringFrom (s : JStr) (a : Nat) : JStr :=
  s.drop (min a s.length)

/-- JavaScript `v || d` on an optional string: a missing or empty string
falls back to the default `d`. -/
def jsOrStr (v : Option JStr) (d : JStr) : JStr :=
  match v with
  | none => d
  | some a => if a = [] then d else a

namespace EmojiInput

/-- A suggestion produced by the `suggest` prop
(`displayText`, `replacement`, optional `detailText` and `imageUrl`). -/
structure Suggestion where
  displayText : JStr
  replacement : JStr
  detailText : Option JStr
  imageUrl : Option JStr
deriving DecidableEq, Repr

/-- An entry of the `suggestions` computed property: the suggestion's fields
with `imageUrl` replaced by `img` (defaulted to the empty string) and a
`highlighted` flag. -/
structure SuggestionEntry where
  displayText : JStr
  replacement : JStr
  detailText : Option JStr
  img : JStr
  highlighted : Bool
deriving DecidableEq, Repr

/-- The `suggestions` computed property.  `textAtCaret` is the word under the
caret (empty when there is none); `highlighted` is the component's
highlighted-index data field.  Mirrors the source: return `[]` when the text
equals its own first character (i.e. has length at most 1) or when `suggest`
matches nothing, otherwise take the first 5 matches and decorate them. -/
def suggestions (suggest : JStr → List Suggestion) (textAtCaret : JStr)
    (highlighted : Int) : List SuggestionEntry :=
  let firstchar := textAtCaret.take 1
  if textAtCaret = firstchar then []
  else
    let matchedSuggestions := suggest textAtCaret
    if matchedSuggestions.length ≤ 0 then []
    else
      (matchedSuggestions.take 5).enum.map (fun p =>
        { displayText := p.2.displayText
          replacement := p.2.replacement
          detailText := p.2.detailText
          img := jsOrStr p.2.imageUrl []
          highlighted := decide ((p.1 : Int) = highlighted) })

/-- `cycleForward`: with more than one suggestion, increment the highlighted
index and wrap to 0 when it reaches the length; otherwise reset it to 0.
The index is an `Int` because the JavaScript arithmetic is signed. -/
def cycleForward (len : Nat) (highlighted : Int) : Int :=
  if 1 < len then
    let h := highlighted + 1
    if (len : Int) ≤ h then 0 else h
  else 0

/-- `cycleBackward`: with more than one suggestion, decrement the highlighted
index and wrap to `len - 1` when it becomes negative; otherwise reset to 0. -/
def cycleBackward (len : Nat) (highlighted : Int) : Int :=
  if 1 < len then
    let h := highlighted - 1
    if h < 0 then (len : Int) - 1 else h
  else 0

/-- A word found at a position: the text together with its start/end offsets
in the whole value (`stop` stands for the source's `end`, a Lean keyword). -/
structure Word where
  word : JStr
  start : Nat
  stop : Nat
deriving DecidableEq, Repr

/-- Modelled from the spec: `Completion.replaceWord` lives in
`services/completion/completion.js`, which is not part of the sources under
verification; the spec describes the widget as doing "substring replacement",
so replacing a word is modelled as splicing the replacement string over the
word's `[start, stop)` range. -/
def replaceWord (str : JStr) (toReplace : Word) (replacement : JStr) : JStr :=
  str.take toReplace.start ++ replacement ++ str.drop toReplace.stop

/-- The `insert` method: splice `insertion` at the caret using JavaScript
`substring`, and report the caret position set in the `$nextTick` callback
(`caret + insertion.length`).  Returns (new value, new caret). -/
def insert (value : JStr) (caret : Nat) (insertion : JStr) : JStr × Nat :=
  (jsSubstring value 0 caret ++ insertion ++ jsSubstringFrom value caret,
   caret + insertion.length)

/-- The value/caret update performed by the `replaceText` method once a
suggestion is chosen: the new value is `Completion.replaceWord` applied to the
word at the caret, and the caret set in the `$nextTick` callback is
`wordAtCaret.start + replacement.length`.  The early-return guards
(`textAtCaret.length === 1`, no suggestion available) perform no update and
are therefore not part of the update function. -/
def replaceText (value : JStr) (wordAtCaret : Word) (replacement : JStr) :
    JStr × Nat :=
  (replaceWord value wordAtCaret replacement,
   wordAtCaret.start + replacement.length)

/-- The `setCaret` method: the caret becomes the event target's
`selectionStart`; the value is untouched. -/
def setCaret (selectionStart : Nat) : Nat := selectionStart

/-- The focus-related state of the EmojiInput component, together with the
bookkeeping of the JavaScript timer queue (`cancelled` records ids passed to
`clearTimeout`, `nextId` is the id `setTimeout` hands out next). -/
structure FocusState where
  focused : Bool
  blurTimeout : Option Nat
  spamMode : Bool
  showPicker : Bool
  temporarilyHideSuggestions : Bool
  caret : Nat
  cancelled : List Nat
  nextId : Nat
deriving DecidableEq, Repr

/-- `onBlur`: schedule the blur callback with `setTimeout` and store the
timer id in `blurTimeout`.  Nothing else changes until the timer fires. -/
def onBlur (s : FocusState) : FocusState :=
  { s with blurTimeout := some s.nextId, nextId := s.nextId + 1 }

/-- The callback scheduled by `onBlur`: clear `focused` and set the caret
from the captured event. -/
def blurCallback (sel : Nat) (s : FocusState) : FocusState :=
  { s with focused := false, caret := sel }

/-- Firing of timer `t` (with the event captured at `onBlur` time): the
callback runs unless the timer was cancelled with `clearTimeout`. -/
def fireTimer (t : Nat) (sel : Nat) (s : FocusState) : FocusState :=
  if s.cancelled.contains t then s else blurCallback sel s

/-- `onFocus`: cancel a pending blur timer (clearing `blurTimeout`), close
the picker unless in spam mode, set `focused`, the caret, and re-show
suggestions. -/
def onFocus (sel : Nat) (s : FocusState) : FocusState :=
  let s1 :=
    match s.blurTimeout with
    | some t => { s with cancelled := t :: s.cancelled, blurTimeout := none }
    | none => s
  let s2 := if s1.spamMode then s1 else { s1 with showPicker := false }
  { s2 with focused := true, caret := sel,
            temporarilyHideSuggestions := false }

end EmojiInput

namespace Registration

/-- The user object bound to the registration form; only `username` and
`nickname` are touched by `submit`, the remaining form fields are kept as an
opaque association list. -/
structure RegUser where
  username : String
  nickname : String
  rest : List (String × String)
deriving DecidableEq, Repr

/-- The parsed JSON payload of an error response (`data` in the source). -/
structure RegPayload where
  error : String
deriving DecidableEq, Repr

/-- The settled response of `backendInteractor.register`: the `ok` flag and
the payload that `response.json()` resolves to. -/
structure RegResponse where
  ok : Bool
  payload : RegPayload
deriving DecidableEq, Repr

/-- The component's data: `user`, `error` (`none` models the initial
`false`), `registering`. -/
structure RegState where
  user : RegUser
  error : Option String
  registering : Bool
deriving DecidableEq, Repr

/-- Everything observable about one run of `submit`: the final component
state, which user (if any) was dispatched to `loginUser`, where the router
was pushed, the user object handed to the backend `register` call, and the
value of `registering` at the moment of that call. -/
structure SubmitResult where
  state : RegState
  dispatchedLoginUser : Option RegUser
  routerPush : Option String
  requestUser : RegUser
  registeringAtCall : Bool
deriving DecidableEq, Repr

/-- The `submit` method, as a function of the settled backend response:
set `registering`, overwrite `nickname` with `username`, call `register`;
on `ok` dispatch `loginUser`, push `/main/all` and clear `registering`;
otherwise clear `registering` and store the payload's `error`. -/
def submit (s : RegState) (resp : RegResponse) : SubmitResult :=
  let s1 : RegState := { s with registering := true }
  let s2 : RegState := { s1 with user := { s1.user with nickname := s1.user.username } }
  if resp.ok then
    { state := { s2 with registering := false }
      dispatchedLoginUser := some s2.user
      routerPush := some "/main/all"
      requestUser := s2.user
      registeringAtCall := s2.registering }
  else
    { state := { s2 with registering := false, error := some resp.payload.error }
      dispatchedLoginUser := none
      routerPush := none
      requestUser := s2.user
      registeringAtCall := s2.registering }

end Registration

namespace NavPanel

/-- An entry of the `lists` computed property (`getListEntries`); it carries
a `name` and whatever other fields, kept opaque in `payload`. -/
structure ListEntry (β : Type) where
  name : String
  payload : β
deriving DecidableEq, Repr

/-- An element of the array literal built inside `pinnedList`: a TIMELINES
entry `{...v, name: k}`, a lists entry, or a ROOT_ITEMS entry `{...v, name: k}`. -/
inductive NavCandidate (α β : Type) where
  | timeline (name : String) (v : α)
  | fromLists (e : ListEntry β)
  | rootItem (name : String) (v : α)
deriving DecidableEq, Repr

/-- The `name` field of an element of the pinned-candidate array. -/
def NavCandidate.name : NavCandidate α β → String
  | .timeline n _ => n
  | .fromLists e => e.name
  | .rootItem n _ => n

/-- The slice of the vuex store observed by NavPanel. `lists` holds the value
of the `getListEntries` mapper (its body lives outside the sources under
verification), `pinnedNavItems` is
`serverSideStorage.prefsStorage.collections.pinnedNavItems`. -/
structure VuexState (β γ : Type) where
  lists : List (ListEntry β)
  currentUser : γ
  instancePrivate : Bool
  instanceFederating : Bool
  pleromaChatMessagesAvailable : Bool
  pinnedNavItems : List String

/-- A JavaScript value as far as the scalar component members go. -/
inductive JsVal where
  | undefined
  | bool (b : Bool)
deriving DecidableEq, Repr

/-- Property lookup `this.<key>` on the NavPanel component, restricted to the
Bool-valued mapped state; any name that is not a member of the component
(in particular `private` — the instance flag is mapped as `privateMode`)
resolves to `undefined`. -/
def navPanelMember (s : VuexState β γ) : String → JsVal
  | "privateMode" => .bool s.instancePrivate
  | "federating" => .bool s.instanceFederating
  | "pleromaChatMessagesAvailable" => .bool s.pleromaChatMessagesAvailable
  | _ => .undefined

/-- The options object passed as second argument to `filterNavigation`. -/
structure FilterOptions (γ : Type) where
  hasChats : JsVal
  isFederating : JsVal
  isPrivate : JsVal
  currentUser : γ
deriving Repr

/-- The array literal `pinnedList` passes to `filterNavigation`: TIMELINES
entries whose key is pinned, lists entries whose name is pinned, and
ROOT_ITEMS entries whose key is pinned, in that order.  `TIMELINES` and
`ROOT_ITEMS` are imported constants (outside the sources under verification)
and are therefore parameters. -/
def pinnedListInput (timelines : List (String × α)) (lists : List (ListEntry β))
    (rootItems : List (String × α)) (pinnedNavItems : List String) :
    List (NavCandidate α β) :=
  (timelines.filter (fun kv => pinnedNavItems.contains kv.1)).map
      (fun kv => .timeline kv.1 kv.2)
    ++ (lists.filter (fun e => pinnedNavItems.contains e.name)).map .fromLists
    ++ (rootItems.filter (fun kv => pinnedNavItems.contains kv.1)).map
      (fun kv => .rootItem kv.1 kv.2)

/-- The options object built inside `pinnedList`: note the source reads
`this.private`, not `this.privateMode`. -/
def pinnedListOptions (s : VuexState β γ) : FilterOptions γ :=
  { hasChats := navPanelMember s "pleromaChatMessagesAvailable"
    isFederating := navPanelMember s "federating"
    isPrivate := navPanelMember s "private"
    currentUser := s.currentUser }

/-- The `pinnedList` computed property; `filterNavigation` is imported from
`navigation/filter.js` (outside the sources under verification) and is a
parameter. -/
def pinnedList (filterNavigation : List (NavCandidate α β) → FilterOptions γ → δ)
    (timelines rootItems : List (String × α)) (s : VuexState β γ) : δ :=
  filterNavigation
    (pinnedListInput timelines s.lists rootItems s.pinnedNavItems)
    (pinnedListOptions s)

end NavPanel

namespace WhoToFollow

/-- One entry of the backend's suggestions reply; `avatar` is optional
because the source defaults it. -/
structure ReplyEntry where
  display_name : String
  acct : String
  avatar : Option String
deriving DecidableEq, Repr

/-- The user object built by `showWhoToFollow` for one reply entry. -/
structure FollowUser where
  id : Nat
  name : String
  screen_name : String
  profile_image_url : String
deriving DecidableEq, Repr

/-- JavaScript `v || d` on an optional plain string. -/
def jsOrS (v : Option String) (d : String) : String :=
  match v with
  | none => d
  | some a => if a = "" then d else a

/-- The user built for reply entry `i`:
`{id: 0, name: display_name, screen_name: acct,
  profile_image_url: avatar || defaultAvatar}`. -/
def mkFollowUser (i : ReplyEntry) : FollowUser :=
  { id := 0
    name := i.display_name
    screen_name := i.acct
    profile_image_url := jsOrS i.avatar "/images/avi.png" }

/-- `showWhoToFollow`: for each reply entry, in order, build a user and push
it onto `users` (the asynchronous `externalProfile` id update is outside the
synchronous push loop). -/
def showWhoToFollow (users : List FollowUser) (reply : List ReplyEntry) :
    List FollowUser :=
  reply.foldl (fun us i => us ++ [mkFollowUser i]) users

end WhoToFollow

/-! Concrete sample inputs used to witness the hypothesised theorems below. -/

/-- Sample registration state. -/
def sampleRegState : Registration.RegState :=
  { user := { username := "alice", nickname := "", rest := [] }
    error := none
    registering := false }

/-- Sample failed registration response. -/
def sampleRegResponse : Registration.RegResponse :=
  { ok := false, payload := { error := "Invalid credentials" } }

/-- Sample input value for the EmojiInput widget. -/
def sampleValue : JStr := ['a', 'b', 'c']

/-- Sample insertion text. -/
def sampleIns : JStr := ['x']

/-- Sample replacement text. -/
def sampleRepl : JStr := ['y', 'z']

/-- Sample word at the caret inside `sampleValue`. -/
def sampleWord : EmojiInput.Word := { word := ['b'], start := 1, stop := 2 }

/-- Sample suggestion. -/
def sampleSuggestion : EmojiInput.Suggestion :=
  { displayText := ['s'], replacement := ['s'], detailText := none,
    imageUrl := none }

/-- Sample suggest function: one match for every query. -/
def sampleSuggest : JStr → List EmojiInput.Suggestion :=
  fun _ => [sampleSuggestion]

/-- Sample word text under the caret. -/
def sampleText : JStr := ['a', 'b']

/-- Sample TIMELINES constant. -/
def sampleTimelines : List (String × Nat) := [("home", 1)]

/-- Sample lists entries. -/
def sampleLists : List (NavPanel.ListEntry Nat) := [{ name := "friends", payload := 7 }]

/-- Sample ROOT_ITEMS constant. -/
def sampleRoot : List (String × Nat) := []

/-- Sample pinned item names. -/
def samplePinned : List String := ["home", "friends"]

/-- Sample pinned-navigation candidate. -/
def sampleCandidate : NavPanel.NavCandidate Nat Nat := .timeline "home" 1

/-- Sample who-to-follow reply entry without an avatar. -/
def sampleEntryNoAvatar : WhoToFollow.ReplyEntry :=
  { display_name := "Bob", acct := "bob@example.com", avatar := none }

/-! Helper lemmas. -/

/-- A list equals its own one-element prefix exactly when its length is at
most one (JS: `text === text.charAt(0)`). -/
theorem eq_take_one_iff (l : List α) : l = l.take 1 ↔ l.length ≤ 1 := by
  cases l with
  | nil => simp
  | cons a t => cases t <;> simp

/-- Mapping a function of the element over an enumerated list forgets the
indices. -/
theorem enum_map_snd_comp (l : List α) (g : α → β) :
    l.enum.map (fun p => g p.2) = l.map g := by
  have h : (fun p : Nat × α => g p.2) = g ∘ Prod.snd := rfl
  rw [h, ← List.map_map, List.enum_map_snd]

/-- `showWhoToFollow` pushes exactly one user per reply entry, in order. -/
theorem showWhoToFollow_eq_append (users : List WhoToFollow.FollowUser)
    (reply : List WhoToFollow.ReplyEntry) :
    WhoToFollow.showWhoToFollow users reply
      = users ++ reply.map WhoToFollow.mkFollowUser := by
  induction reply generalizing users with
  | nil => simp [WhoToFollow.showWhoToFollow]
  | cons a t ih =>
    show WhoToFollow.showWhoToFollow (users ++ [WhoToFollow.mkFollowUser a]) t = _
    rw [ih]
    simp

/-! Claim theorems. -/

/-- Claim C1: cycling suggestions wraps at list boundaries — with more than
one suggestion, `cycleForward` increments the highlighted index and resets it
to 0 when it would reach the list length, `cycleBackward` decrements it and
sets it to `length - 1` when it would become negative; with 0 or 1
suggestions both reset it to 0. -/
theorem cycling_wraps (len : Nat) (hl : Int) (h0 : 0 ≤ hl)
    (h1 : hl < (len : Int)) :
    (1 < len →
      EmojiInput.cycleForward len hl = (if hl + 1 = (len : Int) then 0 else hl + 1) ∧
      EmojiInput.cycleBackward len hl = (if hl = 0 then (len : Int) - 1 else hl - 1)) ∧
    (len ≤ 1 →
      EmojiInput.cycleForward len hl = 0 ∧ EmojiInput.cycleBackward len hl = 0) := by
  unfold EmojiInput.cycleForward EmojiInput.cycleBackward
  constructor
  · intro h
    simp only [if_pos h]
    constructor <;> split_ifs <;> omega
  · intro h
    have hn : ¬ 1 < len := by omega
    simp [hn]

/-- Witness for C1 at a 3-element suggestion list. -/
theorem cycling_wraps_witness :
    EmojiInput.cycleForward 3 2 = 0 ∧ EmojiInput.cycleBackward 3 0 = 2 := by
  refine ⟨?_, ?_⟩
  · rw [((cycling_wraps 3 2 (by decide) (by decide)).1 (by decide)).1]
    decide
  · rw [((cycling_wraps 3 0 (by decide) (by decide)).1 (by decide)).2]
    decide

/-- Claim C2: when the backend register call resolves with `ok = false`,
`submit` clears `registering`, stores the payload's `error` field in the
component's `error`, dispatches no `loginUser`, and does not navigate. -/
theorem registration_error_displayed (s : Registration.RegState)
    (resp : Registration.RegResponse) (h : resp.ok = false) :
    (Registration.submit s resp).state.registering = false ∧
    (Registration.submit s resp).state.error = some resp.payload.error ∧
    (Registration.submit s resp).dispatchedLoginUser = none ∧
    (Registration.submit s resp).routerPush = none := by
  simp [Registration.submit, h]

/-- Witness for C2 at a concrete failed response. -/
theorem registration_error_displayed_witness :
    sampleRegResponse.ok = false ∧
    ((Registration.submit sampleRegState sampleRegResponse).state.registering = false ∧
     (Registration.submit sampleRegState sampleRegResponse).state.error
       = some sampleRegResponse.payload.error ∧
     (Registration.submit sampleRegState sampleRegResponse).dispatchedLoginUser = none ∧
     (Registration.submit sampleRegState sampleRegResponse).routerPush = none) :=
  ⟨rfl, registration_error_displayed sampleRegState sampleRegResponse rfl⟩

/-- Claim C3: starting from a caret within the value, each caret-updating
operation — `setCaret` from a `selectionStart` within the text, `insert`,
and `replaceText` on a well-formed word at the caret — leaves the caret
between 0 and the length of the resulting value inclusive (the lower bound
holds because carets are naturals). -/
theorem caret_in_bounds (value ins repl : JStr) (caret sel : Nat)
    (w : EmojiInput.Word)
    (hcaret : caret ≤ value.length) (hsel : sel ≤ value.length)
    (hw1 : w.start ≤ w.stop) (hw2 : w.stop ≤ value.length) :
    EmojiInput.setCaret sel ≤ value.length ∧
    (EmojiInput.insert value caret ins).2
      ≤ (EmojiInput.insert value caret ins).1.length ∧
    (EmojiInput.replaceText value w repl).2
      ≤ (EmojiInput.replaceText value w repl).1.length := by
  refine ⟨hsel, ?_, ?_⟩
  · simp only [EmojiInput.insert, jsSubstring, jsSubstringFrom,
      List.length_append, List.length_take, List.length_drop]
    omega
  · simp only [EmojiInput.replaceText, EmojiInput.replaceWord,
      List.length_append, List.length_take, List.length_drop]
    omega

/-- Witness for C3 at a concrete state. -/
theorem caret_in_bounds_witness :
    (1 ≤ sampleValue.length ∧ 2 ≤ sampleValue.length ∧
     sampleWord.start ≤ sampleWord.stop ∧ sampleWord.stop ≤ sampleValue.length) ∧
    (EmojiInput.setCaret 2 ≤ sampleValue.length ∧
     (EmojiInput.insert sampleValue 1 sampleIns).2
       ≤ (EmojiInput.insert sampleValue 1 sampleIns).1.length ∧
     (EmojiInput.replaceText sampleValue sampleWord sampleRepl).2
       ≤ (EmojiInput.replaceText sampleValue sampleWord sampleRepl).1.length) :=
  ⟨by decide,
   caret_in_bounds sampleValue sampleIns sampleRepl 1 2 sampleWord
     (by decide) (by decide) (by decide) (by decide)⟩

/-- Claim C4: insertion is substring splicing — for a caret within the
value, `insert` emits `value[0..caret) ++ insertion ++ value[caret..end)`
and the resulting caret is the old caret plus the insertion's length. -/
theorem insert_is_splice (value ins : JStr) (caret : Nat)
    (h : caret ≤ value.length) :
    (EmojiInput.insert value caret ins).1
      = value.take caret ++ ins ++ value.drop caret ∧
    (EmojiInput.insert value caret ins).2 = caret + ins.length := by
  refine ⟨?_, rfl⟩
  simp [EmojiInput.insert, jsSubstring, jsSubstringFrom, Nat.min_eq_left h]

/-- Witness for C4 at a concrete state. -/
theorem insert_is_splice_witness :
    1 ≤ sampleValue.length ∧
    ((EmojiInput.insert sampleValue 1 sampleIns).1
       = sampleValue.take 1 ++ sampleIns ++ sampleValue.drop 1 ∧
     (EmojiInput.insert sampleValue 1 sampleIns).2 = 1 + sampleIns.length) :=
  ⟨by decide, insert_is_splice sampleValue sampleIns 1 (by decide)⟩

/-- Claim C5: the suggestion list is bounded — `suggestions` returns at most
5 entries; it is empty whenever the word at the caret has length at most 1
or `suggest` matches nothing; otherwise its entries are the first 5 results
of `suggest` on the word at the caret, in order. -/
theorem suggestions_bounded (suggest : JStr → List EmojiInput.Suggestion)
    (text : JStr) (hl : Int) :
    (EmojiInput.suggestions suggest text hl).length ≤ 5 ∧
    (text.length ≤ 1 → EmojiInput.suggestions suggest text hl = []) ∧
    (suggest text = [] → EmojiInput.suggestions suggest text hl = []) ∧
    (1 < text.length →
      (EmojiInput.suggestions suggest text hl).map
          (fun e => (e.displayText, e.replacement, e.detailText))
        = ((suggest text).take 5).map
          (fun s => (s.displayText, s.replacement, s.detailText))) := by
  by_cases hc : text = text.take 1
  · have hlen : text.length ≤ 1 := (eq_take_one_iff text).mp hc
    simp only [EmojiInput.suggestions, if_pos hc]
    exact ⟨by simp, fun _ => by simp, fun _ => by simp,
           fun hgt => absurd hlen (by omega)⟩
  · have hlen : ¬ text.length ≤ 1 := fun h => hc ((eq_take_one_iff text).mpr h)
    by_cases hm : (suggest text).length ≤ 0
    · have hnil : suggest text = [] := List.length_eq_zero.mp (Nat.le_zero.mp hm)
      simp only [EmojiInput.suggestions, if_neg hc, if_pos hm]
      exact ⟨by simp, fun h => absurd h hlen, fun _ => by simp,
             fun _ => by simp [hnil]⟩
    · simp only [EmojiInput.suggestions, if_neg hc, if_neg hm]
      refine ⟨?_, fun h => absurd h hlen,
              fun h => by simp [h] at hm, fun _ => ?_⟩
      · simp
      · rw [List.map_map]
        exact enum_map_snd_comp ((suggest text).take 5)
          (fun s => (s.displayText, s.replacement, s.detailText))

/-- Witness for C5: a two-character word yields a bounded, ordered list and a
one-character word yields the empty list. -/
theorem suggestions_bounded_witness :
    (EmojiInput.suggestions sampleSuggest sampleText 0).length ≤ 5 ∧
    EmojiInput.suggestions sampleSuggest ['a'] 0 = [] :=
  ⟨(suggestions_bounded sampleSuggest sampleText 0).1,
   (suggestions_bounded sampleSuggest ['a'] 0).2.1 (by decide)⟩

/-- Claim C6: every entry of the array `pinnedList` passes to
`filterNavigation` — whether it comes from TIMELINES, the lists entries, or
ROOT_ITEMS — has a name belonging to the pinned-items set. -/
theorem pinned_input_only_pinned {α β : Type}
    (timelines rootItems : List (String × α))
    (lists : List (NavPanel.ListEntry β)) (pinned : List String)
    (c : NavPanel.NavCandidate α β)
    (hc : c ∈ NavPanel.pinnedListInput timelines lists rootItems pinned) :
    pinned.contains c.name = true := by
  simp only [NavPanel.pinnedListInput, List.mem_append, List.mem_map,
    List.mem_filter] at hc
  rcases hc with (⟨kv, ⟨_, hk⟩, rfl⟩ | ⟨e, ⟨_, hk⟩, rfl⟩) | ⟨kv, ⟨_, hk⟩, rfl⟩ <;>
    simpa [NavPanel.NavCandidate.name] using hk

/-- Witness for C6 at a concrete store. -/
theorem pinned_input_only_pinned_witness :
    sampleCandidate ∈
      NavPanel.pinnedListInput sampleTimelines sampleLists sampleRoot samplePinned ∧
    samplePinned.contains sampleCandidate.name = true :=
  ⟨by decide,
   pinned_input_only_pinned sampleTimelines sampleRoot sampleLists samplePinned
     sampleCandidate (by decide)⟩

/-- Claim C7: blur is cancellable by focus — `onBlur` leaves `focused`
untouched and stores a timer in `blurTimeout`; a subsequent `onFocus` clears
the timer and nulls `blurTimeout`, so firing the cancelled blur timer changes
nothing and the component stays focused. -/
theorem blur_cancellable_by_focus (s : EmojiInput.FocusState) (sel fsel : Nat) :
    (EmojiInput.onBlur s).focused = s.focused ∧
    (EmojiInput.onBlur s).blurTimeout = some s.nextId ∧
    (EmojiInput.onFocus fsel (EmojiInput.onBlur s)).blurTimeout = none ∧
    (EmojiInput.onFocus fsel (EmojiInput.onBlur s)).focused = true ∧
    EmojiInput.fireTimer s.nextId sel (EmojiInput.onFocus fsel (EmojiInput.onBlur s))
      = EmojiInput.onFocus fsel (EmojiInput.onBlur s) := by
  refine ⟨rfl, rfl, ?_, ?_, ?_⟩ <;>
    by_cases hs : s.spamMode <;>
      simp [EmojiInput.onBlur, EmojiInput.onFocus, EmojiInput.fireTimer,
        EmojiInput.blurCallback, hs]

/-- Claim C8: the `registering` flag is cleared on every settled registration
response — `submit` makes the backend call with `registering = true`, the
final state has `registering = false` in both branches, and the user sent to
the backend has its `nickname` overwritten with `username`. -/
theorem registering_cleared (s : Registration.RegState)
    (resp : Registration.RegResponse) :
    (Registration.submit s resp).registeringAtCall = true ∧
    (Registration.submit s resp).state.registering = false ∧
    (Registration.submit s resp).requestUser.nickname = s.user.username ∧
    (Registration.submit s resp).requestUser.username = s.user.username := by
  by_cases h : resp.ok <;> simp [Registration.submit, h]

/-- Claim C9: the `isPrivate` option `pinnedList` hands to `filterNavigation`
is always `undefined` — the instance flag is mapped as `privateMode` while
the source reads `this.private` — so `instance.private` has no effect on the
filtered pinned list. -/
theorem isPrivate_ineffective {β γ : Type} (s : NavPanel.VuexState β γ)
    (b : Bool) :
    (NavPanel.pinnedListOptions s).isPrivate = NavPanel.JsVal.undefined ∧
    NavPanel.navPanelMember s "privateMode"
      = NavPanel.JsVal.bool s.instancePrivate ∧
    (∀ (α δ : Type)
       (fn : List (NavPanel.NavCandidate α β) → NavPanel.FilterOptions γ → δ)
       (timelines rootItems : List (String × α)),
       NavPanel.pinnedList fn timelines rootItems { s with instancePrivate := b }
         = NavPanel.pinnedList fn timelines rootItems s) :=
  ⟨rfl, rfl, fun _ _ _ _ _ => rfl⟩

/-- Claim C10: follow-suggestion avatars have a default — `showWhoToFollow`
appends one user per reply entry in reply order, and each built user's
`profile_image_url` is the entry's `avatar` when present and non-empty and
`/images/avi.png` otherwise. -/
theorem whoToFollow_avatar_default (users : List WhoToFollow.FollowUser)
    (reply : List WhoToFollow.ReplyEntry) (i : WhoToFollow.ReplyEntry) :
    WhoToFollow.showWhoToFollow users reply
      = users ++ reply.map WhoToFollow.mkFollowUser ∧
    (∀ a, i.avatar = some a → a ≠ "" →
      (WhoToFollow.mkFollowUser i).profile_image_url = a) ∧
    (i.avatar = none ∨ i.avatar = some "" →
      (WhoToFollow.mkFollowUser i).profile_image_url = "/images/avi.png") := by
  refine ⟨showWhoToFollow_eq_append users reply, ?_, ?_⟩
  · intro a ha hne
    simp [WhoToFollow.mkFollowUser, WhoToFollow.jsOrS, ha, hne]
  · intro h
    rcases h with h | h <;> simp [WhoToFollow.mkFollowUser, WhoToFollow.jsOrS, h]

/-- Witness for C10 at a concrete reply. -/
theorem whoToFollow_avatar_default_witness :
    WhoToFollow.showWhoToFollow [] [sampleEntryNoAvatar]
      = [] ++ [sampleEntryNoAvatar].map WhoToFollow.mkFollowUser ∧
    (WhoToFollow.mkFollowUser sampleEntryNoAvatar).profile_image_url
      = "/images/avi.png" :=
  ⟨(whoToFollow_avatar_default [] [sampleEntryNoAvatar] sampleEntryNoAvatar).1,
   (whoToFollow_avatar_default [] [sampleEntryNoAvatar] sampleEntryNoAvatar).2.2
     (Or.inl rfl)⟩
